import Mathlib

/-!
Verification of `src/utils.py` of the interpretable-ml-python repository.

The file embeds the three utilities of `utils.py` shallowly:

* `create_logger` — builds/extends a process-wide logger; modelled by
  explicit state passing on a `Logger` record (Python's
  `logging.getLogger(__name__)` returns the process-wide logger for the
  module name; the input `Logger` is that pre-existing state).
* `plot_distributions` — one chart panel per column of the dataset.
* `plot_vars_vs_target` — one chart panel per column of the dataset
  except the positionally last one.

A pandas DataFrame is modelled as an ordered list of columns, each with a
name, a dtype string (pandas dtypes compare to strings such as `'int64'`,
`'float64'`, `'category'`), and values.  A matplotlib figure is modelled as
its observable configuration: figsize and the ordered list of axes created
by `add_subplot`, each recording the grid coordinates and what was drawn
into it.  Python's `//` raises `ZeroDivisionError` on a zero divisor, so
the plotting functions return `Except String _`, failing exactly when
`n_cols = 0`.  Each result also carries the dataset state after the call
(the functions only read) and whether `plt.show()` was invoked.
-/

namespace InterpretableML

/-- A DataFrame column: name, declared dtype (as the string pandas dtypes
compare equal to), and the value sequence. -/
structure Column where
  name : String
  dtype : String
  values : List Int
  deriving DecidableEq

/-- A DataFrame: an ordered list of columns. -/
structure Dataset where
  cols : List Column
  deriving DecidableEq

/-- `data.columns` of pandas: the column names in order. -/
def Dataset.columns (d : Dataset) : List String := d.cols.map Column.name

/-- The dtype list of the numeric test `data[var].dtype in ['int64','float64']`
appearing in both plotting functions (utils.py lines 72 and 121). -/
def numericDtypes : List String := ["int64", "float64"]

/-- What was drawn into one subplot axis. -/
inductive AxContent where
  | empty : AxContent
  | distplot (col : String) (bins : Nat) (kde : Bool) : AxContent
  | countplot (col : String) : AxContent
  | scatterplot (x : String) (y : String) (alpha : ℚ) : AxContent
  | violinplot (x : String) (y : String) : AxContent
  deriving DecidableEq

/-- One axis created by `fig.add_subplot(gridRows, gridCols, index)`,
with the decoration applied to it. -/
structure Axis where
  gridRows : Nat
  gridCols : Nat
  index : Nat
  content : AxContent
  title : Option String
  titleBold : Bool
  xlabel : Option String
  ylabel : Option String
  xtickRotation : Option Nat
  deriving DecidableEq

/-- A matplotlib figure: `figsize = (width, height)` and its axes in
creation order. -/
structure Figure where
  width : Nat
  height : Nat
  axes : List Axis
  deriving DecidableEq

/-- Result of a plotting call: the returned figure, the dataset state after
the call (state passing; the source only reads it), and whether
`plt.show()` ran. -/
structure PlotResult where
  fig : Figure
  data : Dataset
  showCalled : Bool
  deriving DecidableEq

/-- The loop body of `plot_distributions` (utils.py lines 66-84) for the
`i`-th column `var`: `add_subplot(n_rows, n_cols, i+1)`, then either a
20-bin no-kde `distplot` (numeric dtype) or a `countplot` (otherwise),
with the titles and labels set in the source. -/
def distAxis (n_rows n_cols i : Nat) (var : Column) : Axis :=
  if var.dtype ∈ numericDtypes then
    { gridRows := n_rows
      gridCols := n_cols
      index := i + 1
      content := AxContent.distplot var.name 20 false
      title := some (var.name ++ " distribution")
      titleBold := true
      xlabel := some var.name
      ylabel := some "Frecuency"
      xtickRotation := none }
  else
    { gridRows := n_rows
      gridCols := n_cols
      index := i + 1
      content := AxContent.countplot var.name
      title := some (var.name ++ " distribution")
      titleBold := true
      xlabel := some ""
      ylabel := some "Frecuency"
      xtickRotation := some 90 }

/-- `plot_distributions(data, n_cols=5, show=True)` of utils.py
(lines 46-93).  `n_rows = len(data.columns.tolist()) // n_cols + 1`
raises `ZeroDivisionError` when `n_cols = 0`; otherwise the figure is
created with `figsize = (20, 5*n_rows)` and the loop runs over
`enumerate(data.columns)`. -/
def plot_distributions (data : Dataset) (n_cols : Nat := 5)
    (showFlag : Bool := true) : Except String PlotResult :=
  if n_cols = 0 then
    Except.error "ZeroDivisionError: integer division or modulo by zero"
  else
    let n_rows := data.cols.length / n_cols + 1
    Except.ok
      { fig :=
          { width := 20
            height := 5 * n_rows
            axes := List.mapIdx (fun i var => distAxis n_rows n_cols i var) data.cols }
        data := data
        showCalled := showFlag }

/-- The loop body of `plot_vars_vs_target` (utils.py lines 116-137) for the
`i`-th iterated column `var`: `add_subplot(n_rows, n_cols, i+1)`, then a
`scatterplot` vs the target (numeric dtype), a `violinplot` (dtype
`'category'`), or nothing at all (`pass`). -/
def relAxis (var_target : String) (n_rows n_cols i : Nat) (var : Column) : Axis :=
  if var.dtype ∈ numericDtypes then
    { gridRows := n_rows
      gridCols := n_cols
      index := i + 1
      content := AxContent.scatterplot var.name var_target ((3 : ℚ) / 10)
      title := some (var_target ++ " vs. " ++ var.name)
      titleBold := true
      xlabel := some var.name
      ylabel := some var_target
      xtickRotation := none }
  else if var.dtype = "category" then
    { gridRows := n_rows
      gridCols := n_cols
      index := i + 1
      content := AxContent.violinplot var.name var_target
      title := some (var_target ++ " vs. " ++ var.name)
      titleBold := true
      xlabel := some ""
      ylabel := some var_target
      xtickRotation := some 90 }
  else
    { gridRows := n_rows
      gridCols := n_cols
      index := i + 1
      content := AxContent.empty
      title := none
      titleBold := false
      xlabel := none
      ylabel := none
      xtickRotation := none }

/-- `plot_vars_vs_target(data, var_target='Target', n_cols=5, show=True)` of
utils.py (lines 95-146).  Same grid computation as `plot_distributions`
(on the full column count), but the loop runs over
`enumerate(data.columns[:-1])`: the last column is dropped positionally. -/
def plot_vars_vs_target (data : Dataset) (var_target : String := "Target")
    (n_cols : Nat := 5) (showFlag : Bool := true) : Except String PlotResult :=
  if n_cols = 0 then
    Except.error "ZeroDivisionError: integer division or modulo by zero"
  else
    let n_rows := data.cols.length / n_cols + 1
    Except.ok
      { fig :=
          { width := 20
            height := 5 * n_rows
            axes := List.mapIdx (fun i var => relAxis var_target n_rows n_cols i var)
              data.cols.dropLast }
        data := data
        showCalled := showFlag }

/-- `logging.DEBUG`. -/
def DEBUG : Nat := 10

/-- `logging.INFO`. -/
def INFO : Nat := 20

/-- The kind of a logging handler: `StreamHandler()`, or
`FileHandler(file_name, mode)`. -/
inductive HandlerKind where
  | stream : HandlerKind
  | file (file_name : String) (mode : String) : HandlerKind
  deriving DecidableEq

/-- A logging handler: its kind, its severity threshold (emits records at
this level and above), and its message format string. -/
structure Handler where
  kind : HandlerKind
  level : Nat
  format : String
  deriving DecidableEq

/-- A named logger's state: `logging.getLogger(name)` returns the
process-wide logger registered under `name`, with whatever handlers
previous calls attached. -/
structure Logger where
  name : String
  level : Nat
  handlers : List Handler
  deriving DecidableEq

/-- The stream-handler format of utils.py line 22. -/
def formatter_stream : String := "%(asctime)s : %(levelname)s %(message)s"

/-- The file-handler format of utils.py line 34. -/
def formatter_file : String := "%(asctime)s %(name)s %(lineno)d:%(levelname)s %(message)s"

/-- `create_logger(stream=True, file=True, file_name='logging.log')` of
utils.py (lines 7-44), with the process-wide logger state passed
explicitly: sets the logger level to DEBUG, then appends a DEBUG-level
stream handler (if `stream`) and an INFO-level file handler opened with
`mode='w'` (if `file`) to whatever handlers the logger already had. -/
def create_logger (logger : Logger) (stream : Bool := true) (file : Bool := true)
    (file_name : String := "logging.log") : Logger :=
  let logger1 := { logger with level := DEBUG }
  let logger2 :=
    if stream then
      { logger1 with handlers := logger1.handlers ++
          [{ kind := HandlerKind.stream, level := DEBUG, format := formatter_stream }] }
    else logger1
  if file then
    { logger2 with handlers := logger2.handlers ++
        [{ kind := HandlerKind.file file_name "w", level := INFO, format := formatter_file }] }
  else logger2

/-- Extract the result of a successful plotting call (a degenerate default
on error); used to state closed facts about concrete calls. -/
def getOk (e : Except String PlotResult) : PlotResult :=
  match e with
  | Except.ok r => r
  | Except.error _ => { fig := { width := 0, height := 0, axes := [] }, data := ⟨[]⟩, showCalled := false }

/-- True exactly for a `distplot` (histogram) axis content. -/
def AxContent.isDistplot : AxContent → Bool
  | AxContent.distplot _ _ _ => true
  | _ => false

/-- True exactly for a `countplot` (count bar chart) axis content. -/
def AxContent.isCountplot : AxContent → Bool
  | AxContent.countplot _ => true
  | _ => false

/-- True exactly for a `scatterplot` axis content. -/
def AxContent.isScatterplot : AxContent → Bool
  | AxContent.scatterplot _ _ _ => true
  | _ => false

/-- True exactly for a `violinplot` axis content. -/
def AxContent.isViolinplot : AxContent → Bool
  | AxContent.violinplot _ _ => true
  | _ => false

/-! ### Example datasets used by witnesses and counterexamples -/

/-- A 3-column dataset `[numeric_a, categorical_b, Target]`. -/
def exRelD : Dataset :=
  ⟨[{ name := "numeric_a", dtype := "int64", values := [1, 2, 3] },
    { name := "categorical_b", dtype := "category", values := [0, 1, 0] },
    { name := "Target", dtype := "float64", values := [5, 6, 7] }]⟩

/-- A one-column dataset with a single numeric (`int64`) column. -/
def exNumD : Dataset :=
  ⟨[{ name := "x", dtype := "int64", values := [1, 2, 3] }]⟩

/-- A dataset whose first column has dtype `object` (neither numeric nor
categorical), followed by a numeric column and a target. -/
def exSkipD : Dataset :=
  ⟨[{ name := "w", dtype := "object", values := [0] },
    { name := "x", dtype := "int64", values := [1] },
    { name := "Target", dtype := "float64", values := [2] }]⟩

/-- A two-column dataset. -/
def exMutD : Dataset :=
  ⟨[{ name := "a", dtype := "int64", values := [1] },
    { name := "Target", dtype := "float64", values := [2] }]⟩

/-- A 10-column dataset (for the grid-layout example `10 // 5 + 1 = 3`). -/
def exGridD : Dataset :=
  ⟨List.replicate 10 { name := "x", dtype := "int64", values := [] }⟩

/-- A dataset with an `int32` column: a numeric pandas dtype that is not in
`numericDtypes`, plus a target column. -/
def exInt32D : Dataset :=
  ⟨[{ name := "n32", dtype := "int32", values := [1, 2] },
    { name := "Target", dtype := "float64", values := [3, 4] }]⟩

/-! ### Helper lemmas -/

lemma plot_distributions_eq (d : Dataset) (n : Nat) (b : Bool) (hn : n ≠ 0) :
    plot_distributions d n b = Except.ok
      { fig :=
          { width := 20
            height := 5 * (d.cols.length / n + 1)
            axes := List.mapIdx
              (fun i var => distAxis (d.cols.length / n + 1) n i var) d.cols }
        data := d
        showCalled := b } := by
  simp [plot_distributions, hn]

lemma plot_vars_vs_target_eq (d : Dataset) (t : String) (n : Nat) (b : Bool)
    (hn : n ≠ 0) :
    plot_vars_vs_target d t n b = Except.ok
      { fig :=
          { width := 20
            height := 5 * (d.cols.length / n + 1)
            axes := List.mapIdx
              (fun i var => relAxis t (d.cols.length / n + 1) n i var)
              d.cols.dropLast }
        data := d
        showCalled := b } := by
  simp [plot_vars_vs_target, hn]

lemma distAxis_gridRows (nr nc i : Nat) (v : Column) :
    (distAxis nr nc i v).gridRows = nr := by
  unfold distAxis
  split <;> rfl

lemma relAxis_gridRows (t : String) (nr nc i : Nat) (v : Column) :
    (relAxis t nr nc i v).gridRows = nr := by
  unfold relAxis
  split
  · rfl
  · split <;> rfl

lemma relAxis_index (t : String) (nr nc i : Nat) (v : Column) :
    (relAxis t nr nc i v).index = i + 1 := by
  unfold relAxis
  split
  · rfl
  · split <;> rfl

lemma relAxis_other (t : String) (nr nc i : Nat) (v : Column)
    (h1 : v.dtype ∉ numericDtypes) (h2 : v.dtype ≠ "category") :
    (relAxis t nr nc i v).content = AxContent.empty := by
  unfold relAxis
  rw [if_neg h1, if_neg h2]

lemma distAxis_numeric_eq (nr nc i : Nat) (v : Column)
    (hm : v.dtype ∈ numericDtypes) :
    distAxis nr nc i v =
      { gridRows := nr
        gridCols := nc
        index := i + 1
        content := AxContent.distplot v.name 20 false
        title := some (v.name ++ " distribution")
        titleBold := true
        xlabel := some v.name
        ylabel := some "Frecuency"
        xtickRotation := none } := by
  unfold distAxis
  rw [if_pos hm]

lemma distAxis_nonnumeric_eq (nr nc i : Nat) (v : Column)
    (hm : v.dtype ∉ numericDtypes) :
    distAxis nr nc i v =
      { gridRows := nr
        gridCols := nc
        index := i + 1
        content := AxContent.countplot v.name
        title := some (v.name ++ " distribution")
        titleBold := true
        xlabel := some ""
        ylabel := some "Frecuency"
        xtickRotation := some 90 } := by
  unfold distAxis
  rw [if_neg hm]

lemma distAxis_isDistplot_iff (nr nc i : Nat) (v : Column) :
    (distAxis nr nc i v).content.isDistplot = true ↔
      v.dtype ∈ numericDtypes := by
  unfold distAxis
  by_cases hm : v.dtype ∈ numericDtypes <;>
    simp [hm, AxContent.isDistplot]

lemma distAxis_isCountplot_iff (nr nc i : Nat) (v : Column) :
    (distAxis nr nc i v).content.isCountplot = true ↔
      v.dtype ∉ numericDtypes := by
  unfold distAxis
  by_cases hm : v.dtype ∈ numericDtypes <;>
    simp [hm, AxContent.isCountplot]

lemma relAxis_isScatterplot_iff (t : String) (nr nc i : Nat) (v : Column) :
    (relAxis t nr nc i v).content.isScatterplot = true ↔
      v.dtype ∈ numericDtypes := by
  unfold relAxis
  by_cases hm : v.dtype ∈ numericDtypes
  · simp [hm, AxContent.isScatterplot]
  · by_cases hc : v.dtype = "category"
    · rw [if_neg hm, if_pos hc]
      simp [AxContent.isScatterplot, hm]
    · rw [if_neg hm, if_neg hc]
      simp [AxContent.isScatterplot, hm]

lemma relAxis_isViolinplot_iff (t : String) (nr nc i : Nat) (v : Column) :
    (relAxis t nr nc i v).content.isViolinplot = true ↔
      (v.dtype ∉ numericDtypes ∧ v.dtype = "category") := by
  unfold relAxis
  by_cases hm : v.dtype ∈ numericDtypes
  · simp [hm, AxContent.isViolinplot]
  · by_cases hc : v.dtype = "category"
    · rw [if_neg hm, if_pos hc]
      simp [AxContent.isViolinplot, hm, hc]
      decide
    · rw [if_neg hm, if_neg hc]
      simp [AxContent.isViolinplot, hm, hc]

/-! ### Claims -/

/-- C5: calling either plotter with `n_cols = 0` fails with a division
error (Python `//` by zero) during the grid-row computation; the zero
value is not guarded against and no silent default is applied. -/
theorem n_cols_zero_division_error (d : Dataset) (t : String) (b : Bool) :
    plot_distributions d 0 b =
      Except.error "ZeroDivisionError: integer division or modulo by zero" ∧
    plot_vars_vs_target d t 0 b =
      Except.error "ZeroDivisionError: integer division or modulo by zero" :=
  ⟨rfl, rfl⟩

/-- C7: `plot_distributions` on an empty dataset does not fail: it returns
a degenerate figure with one row (`height = 5 * 1`) and zero axes. -/
theorem empty_dataset_degenerate_figure (n : Nat) (b : Bool) (hn : 0 < n) :
    plot_distributions ⟨[]⟩ n b = Except.ok
      { fig := { width := 20, height := 5 * 1, axes := [] }
        data := ⟨[]⟩
        showCalled := b } := by
  rw [plot_distributions_eq ⟨[]⟩ n b (Nat.pos_iff_ne_zero.mp hn)]
  simp [Nat.zero_div]

/-- Witness for C7 at `n_cols = 5`, `show = false`. -/
theorem empty_dataset_degenerate_figure_witness :
    (0 : Nat) < 5 ∧ plot_distributions ⟨[]⟩ 5 false = Except.ok
      { fig := { width := 20, height := 5 * 1, axes := [] }
        data := ⟨[]⟩
        showCalled := false } :=
  ⟨by decide, empty_dataset_degenerate_figure 5 false (by decide)⟩

/-- C8: `create_logger` (with both outputs enabled) keeps the process-wide
logger's name, sets its level to DEBUG, and appends a DEBUG-threshold
stream handler and an INFO-threshold file handler opened in truncating
mode `"w"`, with distinct formats; a second call appends the same two
handlers again without de-duplication. -/
theorem create_logger_handlers (s : Logger) (fn : String) :
    (create_logger s true true fn).name = s.name ∧
    (create_logger s true true fn).level = DEBUG ∧
    (create_logger s true true fn).handlers = s.handlers ++
      [{ kind := HandlerKind.stream, level := DEBUG, format := formatter_stream },
       { kind := HandlerKind.file fn "w", level := INFO, format := formatter_file }] ∧
    formatter_stream ≠ formatter_file ∧
    (create_logger (create_logger s true true fn) true true fn).handlers =
      s.handlers ++
      [{ kind := HandlerKind.stream, level := DEBUG, format := formatter_stream },
       { kind := HandlerKind.file fn "w", level := INFO, format := formatter_file },
       { kind := HandlerKind.stream, level := DEBUG, format := formatter_stream },
       { kind := HandlerKind.file fn "w", level := INFO, format := formatter_file }] := by
  refine ⟨rfl, rfl, by simp [create_logger], by decide, by simp [create_logger]⟩

/-- C10: neither plotter mutates the input dataset: the dataset state
carried through the call is returned unchanged (columns, order, dtypes,
values all identical). -/
theorem plotters_no_mutation (d : Dataset) (t : String) (n : Nat) (b : Bool) :
    (∀ r, plot_distributions d n b = Except.ok r → r.data = d) ∧
    (∀ r, plot_vars_vs_target d t n b = Except.ok r → r.data = d) := by
  refine ⟨fun r h => ?_, fun r h => ?_⟩
  · by_cases hn : n = 0
    · simp [plot_distributions, hn] at h
    · rw [plot_distributions_eq d n b hn] at h
      injection h with h2
      rw [← h2]
  · by_cases hn : n = 0
    · simp [plot_vars_vs_target, hn] at h
    · rw [plot_vars_vs_target_eq d t n b hn] at h
      injection h with h2
      rw [← h2]

/-- Witness for C10 on a concrete two-column dataset. -/
theorem plotters_no_mutation_witness :
    (getOk (plot_distributions exMutD 5 false)).data = exMutD ∧
    (getOk (plot_vars_vs_target exMutD "Target" 5 false)).data = exMutD :=
  ⟨(plotters_no_mutation exMutD "Target" 5 false).1 _ rfl,
   (plotters_no_mutation exMutD "Target" 5 false).2 _ rfl⟩

/-- C1: `plot_vars_vs_target` iterates exactly the columns of the dataset
except the last column by position, in dataset order, for every value of
`var_target` (the exclusion is positional, not name-based): there is one
axis per column of `data.cols.dropLast`, and the `i`-th axis is built from
the `i`-th such column. -/
theorem plot_vars_vs_target_positional (d : Dataset) (t : String) (n : Nat)
    (b : Bool) (r : PlotResult) (_hd : d.cols ≠ []) (hn : 0 < n)
    (h : plot_vars_vs_target d t n b = Except.ok r) :
    r.fig.axes.length = d.cols.length - 1 ∧
    ∀ i (hi : i < d.cols.dropLast.length) (hi' : i < r.fig.axes.length),
      r.fig.axes.get ⟨i, hi'⟩ =
        relAxis t (d.cols.length / n + 1) n i (d.cols.dropLast.get ⟨i, hi⟩) := by
  rw [plot_vars_vs_target_eq d t n b (Nat.pos_iff_ne_zero.mp hn)] at h
  injection h with h2
  rw [← h2]
  refine ⟨by simp [List.length_mapIdx, List.length_dropLast], fun i hi hi' => ?_⟩
  exact List.get_mapIdx d.cols.dropLast _ i hi

/-- Witness for C1: on the 3-column dataset `[numeric_a, categorical_b,
Target]` with `var_target = "Target"`, exactly two panels are produced —
a scatter panel for `numeric_a` then a violin panel for `categorical_b`. -/
theorem plot_vars_vs_target_positional_witness :
    exRelD.cols ≠ [] ∧ (0 : Nat) < 5 ∧
    (getOk (plot_vars_vs_target exRelD "Target" 5 false)).fig.axes.length =
      exRelD.cols.length - 1 ∧
    (getOk (plot_vars_vs_target exRelD "Target" 5 false)).fig.axes.map
        Axis.content =
      [AxContent.scatterplot "numeric_a" "Target" ((3 : ℚ) / 10),
       AxContent.violinplot "categorical_b" "Target"] :=
  ⟨by decide, by decide,
   (plot_vars_vs_target_positional exRelD "Target" 5 false _ (by decide)
      (by decide) rfl).1,
   by rfl⟩

/-- C2: for every `n_cols ≥ 1`, both plotters compute
`rowCount = columnCount / n_cols + 1` (visible in every axis's grid-row
field and in the figure height) and size the figure as width 20 and
height `5 * rowCount`. -/
theorem grid_layout (d : Dataset) (t : String) (n : Nat) (b : Bool)
    (hn : 1 ≤ n) :
    (∀ r, plot_distributions d n b = Except.ok r →
      r.fig.width = 20 ∧ r.fig.height = 5 * (d.cols.length / n + 1) ∧
      ∀ i (hi' : i < r.fig.axes.length),
        (r.fig.axes.get ⟨i, hi'⟩).gridRows = d.cols.length / n + 1) ∧
    (∀ r, plot_vars_vs_target d t n b = Except.ok r →
      r.fig.width = 20 ∧ r.fig.height = 5 * (d.cols.length / n + 1) ∧
      ∀ i (hi' : i < r.fig.axes.length),
        (r.fig.axes.get ⟨i, hi'⟩).gridRows = d.cols.length / n + 1) := by
  have hn' : n ≠ 0 := Nat.pos_iff_ne_zero.mp hn
  refine ⟨fun r h => ?_, fun r h => ?_⟩
  · rw [plot_distributions_eq d n b hn'] at h
    injection h with h2
    rw [← h2]
    refine ⟨rfl, rfl, fun i hi' => ?_⟩
    have hi : i < d.cols.length := by
      rw [List.length_mapIdx] at hi'
      exact hi'
    rw [List.get_mapIdx d.cols _ i hi]
    exact distAxis_gridRows _ n i _
  · rw [plot_vars_vs_target_eq d t n b hn'] at h
    injection h with h2
    rw [← h2]
    refine ⟨rfl, rfl, fun i hi' => ?_⟩
    have hi : i < d.cols.dropLast.length := by
      rw [List.length_mapIdx] at hi'
      exact hi'
    rw [List.get_mapIdx d.cols.dropLast _ i hi]
    exact relAxis_gridRows t _ n i _

/-- Witness for C2: a 10-column dataset with `n_cols = 5` gives
`rowCount = 3` (height `5 * 3 = 15`), not 2. -/
theorem grid_layout_witness :
    (1 : Nat) ≤ 5 ∧ exGridD.cols.length = 10 ∧
    (getOk (plot_distributions exGridD 5 false)).fig.width = 20 ∧
    (getOk (plot_distributions exGridD 5 false)).fig.height = 5 * 3 :=
  ⟨by decide, by decide,
   ((grid_layout exGridD "Target" 5 false (by decide)).1 _ rfl).1,
   ((grid_layout exGridD "Target" 5 false (by decide)).1 _ rfl).2.1⟩

/-- C4: for every iterated column of `plot_vars_vs_target` whose dtype is
neither numeric nor `'category'`, the axis created for it stays empty (no
panel drawn), yet its grid slot is still reserved: every iterated column
`i` (skipped or not) occupies subplot index `i + 1`. -/
theorem rel_skip_reserves_slot (d : Dataset) (t : String) (n : Nat) (b : Bool)
    (r : PlotResult) (hn : 0 < n)
    (h : plot_vars_vs_target d t n b = Except.ok r) :
    ∀ i (hi : i < d.cols.dropLast.length) (hi' : i < r.fig.axes.length),
      (r.fig.axes.get ⟨i, hi'⟩).index = i + 1 ∧
      ((d.cols.dropLast.get ⟨i, hi⟩).dtype ∉ numericDtypes →
        (d.cols.dropLast.get ⟨i, hi⟩).dtype ≠ "category" →
        (r.fig.axes.get ⟨i, hi'⟩).content = AxContent.empty) := by
  rw [plot_vars_vs_target_eq d t n b (Nat.pos_iff_ne_zero.mp hn)] at h
  injection h with h2
  rw [← h2]
  intro i hi hi'
  rw [List.get_mapIdx d.cols.dropLast _ i hi]
  exact ⟨relAxis_index t _ n i _, fun h1 h2 => relAxis_other t _ n i _ h1 h2⟩

/-- Witness for C4: on `[w : object, x : int64, Target : float64]` the
first axis is empty (column `w` skipped) at subplot index 1, and the next
column still lands at subplot index 2. -/
theorem rel_skip_reserves_slot_witness :
    (0 : Nat) < 5 ∧
    ((getOk (plot_vars_vs_target exSkipD "Target" 5 false)).fig.axes.get
        ⟨0, by decide⟩).index = 0 + 1 ∧
    ((getOk (plot_vars_vs_target exSkipD "Target" 5 false)).fig.axes.get
        ⟨0, by decide⟩).content = AxContent.empty ∧
    ((getOk (plot_vars_vs_target exSkipD "Target" 5 false)).fig.axes.get
        ⟨1, by decide⟩).index = 1 + 1 :=
  ⟨by decide,
   ((rel_skip_reserves_slot exSkipD "Target" 5 false _ (by decide) rfl) 0
      (by decide) (by decide)).1,
   ((rel_skip_reserves_slot exSkipD "Target" 5 false _ (by decide) rfl) 0
      (by decide) (by decide)).2 (by decide) (by decide),
   ((rel_skip_reserves_slot exSkipD "Target" 5 false _ (by decide) rfl) 1
      (by decide) (by decide)).1⟩

/-- C6: for every `n_cols ≥ 1`, each plotter succeeds and returns the
constructed figure regardless of the show flag, and `plt.show()` runs
exactly when the flag is true — in particular never when it is false. -/
theorem show_flag_behavior (d : Dataset) (t : String) (n : Nat) (b : Bool)
    (hn : 0 < n) :
    plot_distributions d n b = Except.ok (getOk (plot_distributions d n b)) ∧
    plot_vars_vs_target d t n b =
      Except.ok (getOk (plot_vars_vs_target d t n b)) ∧
    (getOk (plot_distributions d n b)).showCalled = b ∧
    (getOk (plot_vars_vs_target d t n b)).showCalled = b := by
  have hn' : n ≠ 0 := Nat.pos_iff_ne_zero.mp hn
  rw [plot_distributions_eq d n b hn', plot_vars_vs_target_eq d t n b hn']
  exact ⟨rfl, rfl, rfl, rfl⟩

/-- Witness for C6 with `show = false` on a concrete dataset. -/
theorem show_flag_behavior_witness :
    (0 : Nat) < 5 ∧
    (getOk (plot_distributions exMutD 5 false)).showCalled = false ∧
    (getOk (plot_vars_vs_target exMutD "Target" 5 false)).showCalled = false :=
  ⟨by decide,
   (show_flag_behavior exMutD "Target" 5 false (by decide)).2.2.1,
   (show_flag_behavior exMutD "Target" 5 false (by decide)).2.2.2⟩

/-- C3 counterexample: the y-axis label `plot_distributions` writes is the
literal misspelled string "Frecuency" (utils.py lines 76 and 83), not
"Frequency" as the claim states: on a one-numeric-column dataset the sole
axis's ylabel differs from "Frequency". -/
theorem plot_distributions_ylabel_misspelled :
    (getOk (plot_distributions exNumD 5 false)).fig.axes.map Axis.ylabel =
      [some "Frecuency"] ∧
    (getOk (plot_distributions exNumD 5 false)).fig.axes.map Axis.ylabel ≠
      [some "Frequency"] := by
  refine ⟨rfl, ?_⟩
  decide

/-- C3 (amended): for every column processed by `plot_distributions`: if
the dtype is numeric it renders a 20-bin histogram with no density curve,
titled "name distribution", x-axis labeled with the column name, y-axis
labeled "Frecuency" (the source's literal spelling); for every other
column it renders a count bar chart with the same title convention, empty
x-axis label, y-axis "Frecuency", and x tick labels rotated 90 degrees. -/
theorem plot_distributions_panels (d : Dataset) (n : Nat) (b : Bool)
    (r : PlotResult) (hn : 0 < n)
    (h : plot_distributions d n b = Except.ok r) :
    r.fig.axes.length = d.cols.length ∧
    ∀ i (hi : i < d.cols.length) (hi' : i < r.fig.axes.length),
      ((d.cols.get ⟨i, hi⟩).dtype ∈ numericDtypes →
        r.fig.axes.get ⟨i, hi'⟩ =
          { gridRows := d.cols.length / n + 1
            gridCols := n
            index := i + 1
            content := AxContent.distplot (d.cols.get ⟨i, hi⟩).name 20 false
            title := some ((d.cols.get ⟨i, hi⟩).name ++ " distribution")
            titleBold := true
            xlabel := some (d.cols.get ⟨i, hi⟩).name
            ylabel := some "Frecuency"
            xtickRotation := none }) ∧
      ((d.cols.get ⟨i, hi⟩).dtype ∉ numericDtypes →
        r.fig.axes.get ⟨i, hi'⟩ =
          { gridRows := d.cols.length / n + 1
            gridCols := n
            index := i + 1
            content := AxContent.countplot (d.cols.get ⟨i, hi⟩).name
            title := some ((d.cols.get ⟨i, hi⟩).name ++ " distribution")
            titleBold := true
            xlabel := some ""
            ylabel := some "Frecuency"
            xtickRotation := some 90 }) := by
  rw [plot_distributions_eq d n b (Nat.pos_iff_ne_zero.mp hn)] at h
  injection h with h2
  rw [← h2]
  refine ⟨by simp [List.length_mapIdx], fun i hi hi' => ?_⟩
  rw [List.get_mapIdx d.cols _ i hi]
  exact ⟨fun hm => distAxis_numeric_eq _ n i _ hm,
         fun hm => distAxis_nonnumeric_eq _ n i _ hm⟩

/-- Witness for C3 (amended) on `[numeric_a : int64, categorical_b :
category, Target : float64]`: a histogram panel then a count-bar panel,
both with ylabel "Frecuency". -/
theorem plot_distributions_panels_witness :
    (0 : Nat) < 5 ∧
    (getOk (plot_distributions exRelD 5 false)).fig.axes.length =
      exRelD.cols.length ∧
    (getOk (plot_distributions exRelD 5 false)).fig.axes.get ⟨0, by decide⟩ =
      { gridRows := 1
        gridCols := 5
        index := 1
        content := AxContent.distplot "numeric_a" 20 false
        title := some "numeric_a distribution"
        titleBold := true
        xlabel := some "numeric_a"
        ylabel := some "Frecuency"
        xtickRotation := none } ∧
    (getOk (plot_distributions exRelD 5 false)).fig.axes.get ⟨1, by decide⟩ =
      { gridRows := 1
        gridCols := 5
        index := 2
        content := AxContent.countplot "categorical_b"
        title := some "categorical_b distribution"
        titleBold := true
        xlabel := some ""
        ylabel := some "Frecuency"
        xtickRotation := some 90 } :=
  ⟨by decide,
   (plot_distributions_panels exRelD 5 false _ (by decide) rfl).1,
   ((plot_distributions_panels exRelD 5 false _ (by decide) rfl).2 0
      (by decide) (by decide)).1 (by decide),
   ((plot_distributions_panels exRelD 5 false _ (by decide) rfl).2 1
      (by decide) (by decide)).2 (by decide)⟩

/-- C9: in both plotters a column is classified as numeric if and only if
its dtype is exactly one of int64 / float64 (`numericDtypes`); any other
dtype (including int32, float32) goes to the count-bar branch of
`plot_distributions`, and to the categorical (violin) or skip branch of
`plot_vars_vs_target`. -/
theorem numeric_dtype_classification (d : Dataset) (t : String) (n : Nat)
    (b : Bool) (hn : 0 < n) :
    (∀ s, s ∈ numericDtypes ↔ (s = "int64" ∨ s = "float64")) ∧
    (∀ r, plot_distributions d n b = Except.ok r →
      ∀ i (hi : i < d.cols.length) (hi' : i < r.fig.axes.length),
        (((r.fig.axes.get ⟨i, hi'⟩).content.isDistplot = true) ↔
          (d.cols.get ⟨i, hi⟩).dtype ∈ numericDtypes) ∧
        (((r.fig.axes.get ⟨i, hi'⟩).content.isCountplot = true) ↔
          (d.cols.get ⟨i, hi⟩).dtype ∉ numericDtypes)) ∧
    (∀ r, plot_vars_vs_target d t n b = Except.ok r →
      ∀ i (hi : i < d.cols.dropLast.length) (hi' : i < r.fig.axes.length),
        (((r.fig.axes.get ⟨i, hi'⟩).content.isScatterplot = true) ↔
          (d.cols.dropLast.get ⟨i, hi⟩).dtype ∈ numericDtypes) ∧
        (((r.fig.axes.get ⟨i, hi'⟩).content.isViolinplot = true) ↔
          ((d.cols.dropLast.get ⟨i, hi⟩).dtype ∉ numericDtypes ∧
            (d.cols.dropLast.get ⟨i, hi⟩).dtype = "category"))) := by
  have hn' : n ≠ 0 := Nat.pos_iff_ne_zero.mp hn
  refine ⟨by simp [numericDtypes], fun r h => ?_, fun r h => ?_⟩
  · rw [plot_distributions_eq d n b hn'] at h
    injection h with h2
    rw [← h2]
    intro i hi hi'
    rw [List.get_mapIdx d.cols _ i hi]
    exact ⟨distAxis_isDistplot_iff _ n i _, distAxis_isCountplot_iff _ n i _⟩
  · rw [plot_vars_vs_target_eq d t n b hn'] at h
    injection h with h2
    rw [← h2]
    intro i hi hi'
    rw [List.get_mapIdx d.cols.dropLast _ i hi]
    exact ⟨relAxis_isScatterplot_iff t _ n i _,
           relAxis_isViolinplot_iff t _ n i _⟩

/-- Witness for C9: an `int32` column is not in `numericDtypes` and lands
in the count-bar branch of `plot_distributions`. -/
theorem numeric_dtype_classification_witness :
    (0 : Nat) < 5 ∧
    ("int32" ∈ numericDtypes ↔ ("int32" = "int64" ∨ "int32" = "float64")) ∧
    ((getOk (plot_distributions exInt32D 5 false)).fig.axes.get
        ⟨0, by decide⟩).content.isCountplot = true :=
  ⟨by decide,
   (numeric_dtype_classification exInt32D "Target" 5 false (by decide)).1
     "int32",
   (((numeric_dtype_classification exInt32D "Target" 5 false
        (by decide)).2.1 _ rfl 0 (by decide) (by decide)).2).mpr (by decide)⟩

end InterpretableML
